import Mathlib

set_option maxRecDepth 8192

/-!
Verification of the CloudBooter free-tier quota validator and resource planner.

This file shallowly embeds, in Lean 4, the quota-validation and planning logic
of the CloudBooter repository:

* `src/cloud/GCP/src/cloudbooter/free_tier.py`
  (`GCPFreeTierLimits`, `validate_proposed_config`), and
* `src/cloud/OCI/src/cloudbooter/cli.py`
  (`ExistingResources`, `PlannedConfig`, `CloudBooterWorkflow._available_resources`,
  `_plan_from_existing`, `_plan_custom`, `_plan_maximum`,
  `_validate_proposed_config`, `_render_variables_tf`).

Python `int` values are modelled as `Int`; Python `str` as `String`;
`str | None` as `Option String`; Python dicts holding inventory entries are
modelled as lists of their values (the planner and validator only ever read
`len(...)`, `.values()` and positional fields of the pipe-separated value
strings, so each value string is modelled as a record of its consumed fields).
Functions that raise `click.ClickException` are modelled with `Except String`.
-/

/-! ## Decimal literals

Python renders every integer with `str(x)` / f-string interpolation: a
minus sign for negative values followed by the usual base-10 digits.
`intLit` reproduces that notation with a structurally recursive (fuel-based)
definition so the kernel can evaluate it, and the parsing functions below
invert it.
-/

/-- The character for a single decimal digit `d < 10`. -/
def charOfDigit (d : Nat) : Char :=
  match d with
  | 0 => '0' | 1 => '1' | 2 => '2' | 3 => '3' | 4 => '4'
  | 5 => '5' | 6 => '6' | 7 => '7' | 8 => '8' | _ => '9'

/-- Numeric value of a decimal digit character. -/
def digitVal (c : Char) : Nat :=
  c.toNat - 48

/-- Base-10 digit characters of a positive `n`, most significant first.
The first argument is fuel; `natLitChars` passes `n` itself, which is enough
since the value shrinks by a factor of ten at each step. -/
def natLitAux : Nat → Nat → List Char
  | 0, _ => []
  | _, 0 => []
  | fuel + 1, n + 1 =>
      natLitAux fuel ((n + 1) / 10) ++ [charOfDigit ((n + 1) % 10)]

/-- Base-10 digit string of a natural number, as Python `str` writes it. -/
def natLitChars (n : Nat) : List Char :=
  if n = 0 then ['0'] else natLitAux n n

/-- Python `str(x)` for an integer `x`. -/
def intLitChars (i : Int) : List Char :=
  if i < 0 then '-' :: natLitChars i.natAbs else natLitChars i.toNat

/-- Python `str(x)` for an integer, as a `String`. -/
def intLit (i : Int) : String :=
  ⟨intLitChars i⟩

example : intLit 0 = "0" := rfl
example : intLit 200 = "200" := rfl
example : intLit 47 = "47" := rfl
example : intLit (-13) = "-13" := rfl

/-! ## GCP free-tier limits and validator

Embedding of `src/cloud/GCP/src/cloudbooter/free_tier.py`.  The frozen
dataclass `GCPFreeTierLimits` is a Lean structure with the same fields and
defaults (the one `float` field, `free_artifact_registry_gb = 0.5`, is kept
as a rational number; nothing in this development reads it).
-/

structure GCPFreeTierLimits where
  free_machine_type : String := "e2-micro"
  free_compute_hours_per_month : Int := 744
  free_compute_regions : List String := ["us-west1", "us-central1", "us-east1"]
  free_standard_pd_gb : Int := 30
  free_compute_egress_gb : Int := 1
  free_storage_gb : Int := 5
  free_storage_regions : List String := ["us-east1", "us-west1", "us-central1"]
  free_storage_class_a_ops : Int := 5000
  free_storage_class_b_ops : Int := 50000
  free_storage_egress_gb : Int := 100
  free_firestore_storage_gib : Int := 1
  free_firestore_reads_per_day : Int := 50000
  free_firestore_writes_per_day : Int := 20000
  free_firestore_deletes_per_day : Int := 20000
  free_firestore_egress_gib_month : Int := 10
  free_bigquery_query_tib : Int := 1
  free_bigquery_storage_gib : Int := 10
  free_pubsub_gib_month : Int := 10
  free_functions_invocations : Int := 2000000
  free_functions_gb_seconds : Int := 400000
  free_functions_ghz_seconds : Int := 200000
  free_functions_egress_gb : Int := 5
  free_cloudrun_requests : Int := 2000000
  free_cloudrun_gb_seconds : Int := 360000
  free_cloudrun_vcpu_seconds : Int := 180000
  free_cloudrun_egress_gb : Int := 1
  free_secret_versions : Int := 6
  free_secret_access_ops : Int := 10000
  free_secret_rotation_notifications : Int := 3
  free_artifact_registry_gb : Rat := 1 / 2
  free_build_minutes : Int := 2500
  free_logging_gib_per_project : Int := 50
  free_gke_clusters : Int := 1
  free_app_engine_f1_hours_per_day : Int := 28
  free_app_engine_b1_hours_per_day : Int := 9
  cost_trap_cloud_dns : Bool := true
  cost_trap_cloud_nat : Bool := true
  cost_trap_load_balancer : Bool := true

/-- Module-level singleton `LIMITS = GCPFreeTierLimits()`. -/
def LIMITS : GCPFreeTierLimits := {}

/-- Embeds `validate_proposed_config` from `free_tier.py`.  Returns the list of
error strings; an empty list means the configuration is valid.  Python's
`if storage_region and storage_region not in ...` treats the empty string as
falsy, hence the explicit `s ≠ ""` conjunct. -/
def validate_proposed_config
    (machine_type : String) (region : String) (boot_disk_size_gb : Int)
    (storage_region : Option String := none)
    (allow_paid_resources : Bool := false) : List String :=
  let limits := LIMITS
  if allow_paid_resources then []
  else
    (if machine_type ≠ limits.free_machine_type then
      ["ERROR: Machine type \x27" ++ machine_type ++ "\x27 is not Always Free. " ++
        "Only \x27" ++ limits.free_machine_type ++ "\x27 is free. " ++
        "Set GCP_ALLOW_PAID_RESOURCES=true to override."]
    else []) ++
    (if region ∉ limits.free_compute_regions then
      ["ERROR: Region \x27" ++ region ++ "\x27 is not Always Free for Compute Engine. " ++
        "Free regions: " ++ String.intercalate ", " limits.free_compute_regions ++ "."]
    else []) ++
    (if boot_disk_size_gb > limits.free_standard_pd_gb then
      ["ERROR: Boot disk " ++ intLit boot_disk_size_gb ++
        " GB exceeds Always Free cap of " ++ intLit limits.free_standard_pd_gb ++
        " GB standard PD."]
    else []) ++
    (match storage_region with
     | some s =>
        if s ≠ "" ∧ s ∉ limits.free_storage_regions then
          ["ERROR: Cloud Storage region \x27" ++ s ++ "\x27 is not Always Free. " ++
            "Free regions: " ++ String.intercalate ", " limits.free_storage_regions ++ "."]
        else []
     | none => [])

example :
    validate_proposed_config "e2-micro" "us-central1" 20 none false = [] := by decide
example :
    (validate_proposed_config "n2-standard-2" "asia-east1" 200 none false).length = 3 := by
  decide

/-! ## OCI free-tier constants and data model

Embedding of the constants and dataclasses of
`src/cloud/OCI/src/cloudbooter/cli.py`.
-/

def FREE_TIER_MAX_AMD_INSTANCES : Int := 2
def FREE_TIER_AMD_SHAPE : String := "VM.Standard.E2.1.Micro"
def FREE_TIER_MAX_ARM_OCPUS : Int := 4
def FREE_TIER_MAX_ARM_MEMORY_GB : Int := 24
def FREE_TIER_ARM_SHAPE : String := "VM.Standard.A1.Flex"
def FREE_TIER_MAX_STORAGE_GB : Int := 200
def FREE_TIER_MIN_BOOT_VOLUME_GB : Int := 47
def FREE_TIER_MAX_ARM_INSTANCES : Int := 4
def FREE_TIER_MAX_VCNS : Int := 2

/-- One value of `ExistingResources.amd_instances`: the pipe-separated string
`f"{display_name}|{lifecycle_state}|{shape}|{public_ip}|{private_ip}"`
built in `_inventory_compute_instances`.  The planner reads field 0 only. -/
structure AmdInstanceRec where
  display_name : String
  lifecycle_state : String
  shape : String
  public_ip : String
  private_ip : String
deriving DecidableEq

/-- One value of `ExistingResources.arm_instances`: the AMD record extended
with `|{ocpus}|{memory}` (fields 5 and 6), as built in
`_inventory_compute_instances`. -/
structure ArmInstanceRec where
  display_name : String
  lifecycle_state : String
  shape : String
  public_ip : String
  private_ip : String
  ocpus : Int
  memory : Int
deriving DecidableEq

/-- One value of `ExistingResources.boot_volumes` / `block_volumes`:
`f"{display_name}|{int(size_in_gbs)}"` (field 1 holds the size). -/
structure VolumeRec where
  display_name : String
  size_in_gbs : Int
deriving DecidableEq

/-- The `ExistingResources` dataclass.  Each dict is modelled by the list of its
values; the consumers only use `len(...)` and `.values()`. -/
structure ExistingResources where
  vcns : List String := []
  subnets : List String := []
  internet_gateways : List String := []
  route_tables : List String := []
  security_lists : List String := []
  amd_instances : List AmdInstanceRec := []
  arm_instances : List ArmInstanceRec := []
  boot_volumes : List VolumeRec := []
  block_volumes : List VolumeRec := []
deriving DecidableEq

/-- The `PlannedConfig` dataclass. -/
structure PlannedConfig where
  amd_micro_instance_count : Int
  amd_micro_boot_volume_size_gb : Int
  amd_micro_hostnames : List String
  amd_block_volume_size_gb : Int
  arm_flex_instance_count : Int
  arm_flex_ocpus_per_instance : List Int
  arm_flex_memory_per_instance : List Int
  arm_flex_boot_volume_size_gb : List Int
  arm_flex_hostnames : List String
  arm_block_volume_sizes : List Int
deriving DecidableEq

/-- The fields of `OciContext` consumed by planning and rendering
(`config` and `signer` are SDK handles that never reach this logic).
`ubuntu_arm_image_ocid`/`ubuntu_x86_image_ocid` are `str | None`; Python
truthiness on them coincides with `Option.isSome` except for the empty
string, which the image lookup never returns. -/
structure OciContext where
  tenancy_ocid : String
  user_ocid : Option String
  region : String
  availability_domain : String
  ubuntu_x86_image_ocid : Option String
  ubuntu_arm_image_ocid : Option String
deriving DecidableEq

/-- Sum of an integer-valued projection over a list. -/
def sumBy {α : Type} (f : α → Int) (l : List α) : Int :=
  (l.map f).sum

/-- Embeds `CloudBooterWorkflow._available_resources`: remaining free-tier budget
`(amd instances, arm ocpus, arm memory, storage GB)` = cap − currently used. -/
def availableResources (res : ExistingResources) : Int × Int × Int × Int :=
  let used_amd : Int := res.amd_instances.length
  let used_arm_ocpus := sumBy (·.ocpus) res.arm_instances
  let used_arm_memory := sumBy (·.memory) res.arm_instances
  let used_storage :=
    sumBy (·.size_in_gbs) res.boot_volumes + sumBy (·.size_in_gbs) res.block_volumes
  (FREE_TIER_MAX_AMD_INSTANCES - used_amd,
   FREE_TIER_MAX_ARM_OCPUS - used_arm_ocpus,
   FREE_TIER_MAX_ARM_MEMORY_GB - used_arm_memory,
   FREE_TIER_MAX_STORAGE_GB - used_storage)

/-- Total storage a `PlannedConfig` proposes, as computed in
`_validate_proposed_config`. -/
def proposedStorage (planned : PlannedConfig) : Int :=
  planned.amd_micro_instance_count * planned.amd_micro_boot_volume_size_gb
    + planned.arm_flex_boot_volume_size_gb.sum
    + planned.amd_micro_instance_count * planned.amd_block_volume_size_gb
    + planned.arm_block_volume_sizes.sum

/-- The `errors` list accumulated by `CloudBooterWorkflow._validate_proposed_config`
before it decides whether to raise. -/
def ociValidationErrors (res : ExistingResources) (planned : PlannedConfig) :
    List String :=
  let avail := availableResources res
  let available_amd := avail.1
  let available_arm_ocpus := avail.2.1
  let available_arm_memory := avail.2.2.1
  let available_storage := avail.2.2.2
  let proposed_arm_ocpus := planned.arm_flex_ocpus_per_instance.sum
  let proposed_arm_memory := planned.arm_flex_memory_per_instance.sum
  let proposed_storage := proposedStorage planned
  (if planned.amd_micro_instance_count > available_amd then
    ["Cannot create " ++ intLit planned.amd_micro_instance_count ++
      " AMD instances, only " ++ intLit available_amd ++ " available."]
  else []) ++
  (if proposed_arm_ocpus > available_arm_ocpus then
    ["Cannot allocate " ++ intLit proposed_arm_ocpus ++
      " ARM OCPUs, only " ++ intLit available_arm_ocpus ++ " available."]
  else []) ++
  (if proposed_arm_memory > available_arm_memory then
    ["Cannot allocate " ++ intLit proposed_arm_memory ++
      "GB ARM memory, only " ++ intLit available_arm_memory ++ "GB available."]
  else []) ++
  (if proposed_storage > available_storage then
    ["Cannot use " ++ intLit proposed_storage ++
      "GB storage, only " ++ intLit available_storage ++ "GB available."]
  else []) ++
  (if (res.vcns.length : Int) > FREE_TIER_MAX_VCNS then
    ["Existing VCN count already exceeds free-tier VCN limit."]
  else [])

/-- Embeds `CloudBooterWorkflow._validate_proposed_config`: collects the error list
and raises `click.ClickException` (modelled as `Except.error` carrying the
exception message) when it is non-empty. -/
def ociValidateProposedConfig (res : ExistingResources) (planned : PlannedConfig) :
    Except String Unit :=
  let errors := ociValidationErrors res planned
  if errors ≠ [] then
    .error ("Free Tier validation failed:\n- " ++ String.intercalate "\n- " errors)
  else
    .ok ()

/-- Embeds `CloudBooterWorkflow._plan_from_existing`.  `hasArmImage` models the
truthiness of `self.oci_context and self.oci_context.ubuntu_arm_image_ocid`. -/
def planFromExisting (hasArmImage : Bool) (res : ExistingResources) : PlannedConfig :=
  let amd_entries := res.amd_instances
  let arm_entries := res.arm_instances
  let amd_hostnames := amd_entries.map (·.display_name)
  let arm_hostnames := arm_entries.map (·.display_name)
  let arm_ocpus := arm_entries.map (·.ocpus)
  let arm_memory := arm_entries.map (·.memory)
  let arm_boot := List.replicate arm_entries.length FREE_TIER_MIN_BOOT_VOLUME_GB
  if amd_entries = [] ∧ arm_entries = [] then
    { amd_micro_instance_count := 0
      amd_micro_boot_volume_size_gb := 50
      amd_micro_hostnames := []
      amd_block_volume_size_gb := 0
      arm_flex_instance_count := if hasArmImage then 1 else 0
      arm_flex_ocpus_per_instance := if hasArmImage then [4] else []
      arm_flex_memory_per_instance := if hasArmImage then [24] else []
      arm_flex_boot_volume_size_gb := if hasArmImage then [200] else []
      arm_flex_hostnames := if hasArmImage then ["arm-instance-1"] else []
      arm_block_volume_sizes := if hasArmImage then [0] else [] }
  else
    { amd_micro_instance_count := amd_entries.length
      amd_micro_boot_volume_size_gb := 50
      amd_micro_hostnames := amd_hostnames
      amd_block_volume_size_gb := 0
      arm_flex_instance_count := arm_entries.length
      arm_flex_ocpus_per_instance := arm_ocpus
      arm_flex_memory_per_instance := arm_memory
      arm_flex_boot_volume_size_gb := arm_boot
      arm_flex_hostnames := arm_hostnames
      arm_block_volume_sizes := List.replicate arm_entries.length 0 }

/-- Embeds `CloudBooterWorkflow._plan_maximum`. -/
def planMaximum (hasArmImage : Bool) (res : ExistingResources) : PlannedConfig :=
  let avail := availableResources res
  let available_amd := avail.1
  let available_arm_ocpus := avail.2.1
  let available_arm_memory := avail.2.2.1
  let available_storage := avail.2.2.2
  let amd_count := max 0 available_amd
  let amd_boot : Int := 50
  let amd_hosts := (List.range amd_count.toNat).map
    (fun i => "amd-instance-" ++ intLit (i + 1))
  if hasArmImage ∧ available_arm_ocpus > 0 then
    { amd_micro_instance_count := amd_count
      amd_micro_boot_volume_size_gb := amd_boot
      amd_micro_hostnames := amd_hosts
      amd_block_volume_size_gb := 0
      arm_flex_instance_count := 1
      arm_flex_ocpus_per_instance := [available_arm_ocpus]
      arm_flex_memory_per_instance := [available_arm_memory]
      arm_flex_boot_volume_size_gb :=
        [max FREE_TIER_MIN_BOOT_VOLUME_GB (available_storage - amd_count * amd_boot)]
      arm_flex_hostnames := ["arm-instance-1"]
      arm_block_volume_sizes := [0] }
  else
    { amd_micro_instance_count := amd_count
      amd_micro_boot_volume_size_gb := amd_boot
      amd_micro_hostnames := amd_hosts
      amd_block_volume_size_gb := 0
      arm_flex_instance_count := 0
      arm_flex_ocpus_per_instance := []
      arm_flex_memory_per_instance := []
      arm_flex_boot_volume_size_gb := []
      arm_flex_hostnames := []
      arm_block_volume_sizes := [] }

/-! ## The interactive custom planner

`_plan_custom` drives `click.prompt` loops.  `click.prompt` with an
`IntRange(lo, hi)` re-prompts until the user enters a value inside the range,
so a run of the planner is modelled by the sequence of accepted inputs
(`CustomInputs`) together with the predicate `acceptedCustomInputs` stating
that every entered value lies in the range `click` enforced for it at that
point of the dialogue (ranges for later ARM instances depend on the remaining
budget after earlier ones, exactly as in the source).
-/

/-- The answers given for one ARM instance: hostname, OCPU count, memory GB
and boot volume GB, in prompt order. -/
structure ArmSpec where
  hostname : String
  ocpus : Int
  memory : Int
  boot : Int
deriving DecidableEq

/-- All answers of one `_plan_custom` dialogue. -/
structure CustomInputs where
  amd_count : Int
  amd_boot : Int
  amd_hostnames : List String
  arm_count : Int
  arm_specs : List ArmSpec
deriving DecidableEq

/-- The ranges `click.IntRange` enforced on the per-ARM-instance prompts,
threading the remaining OCPU and memory budget (`rem_ocpus -= ocpu`,
`rem_memory -= mem`) through the loop of `_plan_custom`. -/
def acceptedArmSpecs : Int → Int → List ArmSpec → Bool
  | _, _, [] => true
  | rem_ocpus, rem_memory, s :: rest =>
      (decide (1 ≤ s.ocpus) && decide (s.ocpus ≤ max 1 rem_ocpus)) &&
      (decide (1 ≤ s.memory) &&
        decide (s.memory ≤ max 1 (min rem_memory (s.ocpus * 6)))) &&
      (decide (50 ≤ s.boot) && decide (s.boot ≤ 200)) &&
      acceptedArmSpecs (rem_ocpus - s.ocpus) (rem_memory - s.memory) rest

/-- The ranges enforced by every prompt of one `_plan_custom` dialogue
(`click.IntRange(0, max(0, available_amd))` for the AMD count,
`IntRange(50, 100)` for the AMD boot size when any AMD instance is requested,
`IntRange(0, FREE_TIER_MAX_ARM_INSTANCES)` for the ARM count, and the
per-instance ranges of `acceptedArmSpecs`); when the ARM branch is not
entered (`ubuntu_arm_image_ocid` falsy or no OCPUs available) no ARM inputs
exist. -/
def acceptedCustomInputs (hasArmImage : Bool) (res : ExistingResources)
    (inp : CustomInputs) : Bool :=
  let avail := availableResources res
  let available_amd := avail.1
  let available_arm_ocpus := avail.2.1
  let available_arm_memory := avail.2.2.1
  (decide (0 ≤ inp.amd_count) && decide (inp.amd_count ≤ max 0 available_amd)) &&
  (if inp.amd_count = 0 then decide (inp.amd_boot = 50)
   else decide (50 ≤ inp.amd_boot) && decide (inp.amd_boot ≤ 100)) &&
  decide ((inp.amd_hostnames.length : Int) = inp.amd_count) &&
  (if hasArmImage ∧ available_arm_ocpus > 0 then
    (decide (0 ≤ inp.arm_count) &&
      decide (inp.arm_count ≤ FREE_TIER_MAX_ARM_INSTANCES)) &&
    decide ((inp.arm_specs.length : Int) = inp.arm_count) &&
    acceptedArmSpecs available_arm_ocpus available_arm_memory inp.arm_specs
  else decide (inp.arm_count = 0) && decide (inp.arm_specs = []))

/-- Embeds `CloudBooterWorkflow._plan_custom`, as a function of the accepted
dialogue answers. -/
def planCustom (hasArmImage : Bool) (res : ExistingResources)
    (inp : CustomInputs) : PlannedConfig :=
  let avail := availableResources res
  let available_arm_ocpus := avail.2.1
  if hasArmImage ∧ available_arm_ocpus > 0 then
    { amd_micro_instance_count := inp.amd_count
      amd_micro_boot_volume_size_gb := inp.amd_boot
      amd_micro_hostnames := inp.amd_hostnames
      amd_block_volume_size_gb := 0
      arm_flex_instance_count := inp.arm_count
      arm_flex_ocpus_per_instance := inp.arm_specs.map (·.ocpus)
      arm_flex_memory_per_instance := inp.arm_specs.map (·.memory)
      arm_flex_boot_volume_size_gb := inp.arm_specs.map (·.boot)
      arm_flex_hostnames := inp.arm_specs.map (·.hostname)
      arm_block_volume_sizes := inp.arm_specs.map (fun _ => 0) }
  else
    { amd_micro_instance_count := inp.amd_count
      amd_micro_boot_volume_size_gb := inp.amd_boot
      amd_micro_hostnames := inp.amd_hostnames
      amd_block_volume_size_gb := 0
      arm_flex_instance_count := 0
      arm_flex_ocpus_per_instance := []
      arm_flex_memory_per_instance := []
      arm_flex_boot_volume_size_gb := []
      arm_flex_hostnames := []
      arm_block_volume_sizes := [] }

/-! ## Re-parsing rendered numeric literals

`_render_variables_tf` prints scalars with `str(x)` and integer lists as
`"[" + ", ".join(str(x) for x in items) + "]"`.  The functions below parse
such literals back out of the rendered text.
-/

/-- Decimal value of a digit string (most significant digit first). -/
def decimalValue (l : List Char) : Nat :=
  l.foldl (fun acc c => acc * 10 + digitVal c) 0

/-- Parse a non-empty all-digit string as a natural number. -/
def parseNatChars (l : List Char) : Option Nat :=
  if l ≠ [] ∧ l.all (fun c => c.isDigit) then some (decimalValue l) else none

/-- Parse an optionally `-`-signed decimal integer, as `int(...)` would. -/
def parseIntChars (l : List Char) : Option Int :=
  match l with
  | [] => none
  | c :: rest =>
      if c = '-' then (parseNatChars rest).map (fun (n : Nat) => -(n : Int))
      else (parseNatChars (c :: rest)).map (fun (n : Nat) => (n : Int))

/-- Parse an integer literal from a string. -/
def parseInt (s : String) : Option Int :=
  parseIntChars s.data

/-- Models `", ".join(...)`: interleave the separator `", "` between the pieces. -/
def joinSep : List (List Char) → List Char
  | [] => []
  | [x] => x
  | x :: y :: rest => x ++ ',' :: ' ' :: joinSep (y :: rest)

/-- Split a character list at every comma. -/
def splitComma : List Char → List (List Char)
  | [] => [[]]
  | c :: rest =>
      if c = ',' then [] :: splitComma rest
      else
        match splitComma rest with
        | [] => [[c]]
        | h :: t => (c :: h) :: t

/-- The `"[" + ", ".join(str(x) for x in items) + "]"` literal produced by
`nums(...)` inside `_render_variables_tf`, at the character level. -/
def numsChars (items : List Int) : List Char :=
  '[' :: (joinSep (items.map intLitChars) ++ [']'])

/-- Embeds `nums(...)` from `_render_variables_tf`. -/
def nums (items : List Int) : String :=
  ⟨numsChars items⟩

example : nums [] = "[]" := rfl
example : nums [4] = "[4]" := rfl
example : nums [1, 2, 24] = "[1, 2, 24]" := rfl

/-- Embeds `q(...)` from `_render_variables_tf`: a bracketed, comma-separated list
of double-quoted strings. -/
def q (items : List String) : String :=
  "[" ++ String.intercalate ", " (items.map (fun x => "\"" ++ x ++ "\"")) ++ "]"

example : q [] = "[]" := rfl
example : q ["a", "b"] = "[\"a\", \"b\"]" := by decide

/-- Parse a `[a, b, c]` integer-list literal: strip the brackets, split at
commas, drop the separator space in front of each item, and parse each item. -/
def parseNumsChars (l : List Char) : Option (List Int) :=
  match l with
  | '[' :: rest =>
      if rest.getLast? = some ']' then
        let inner := rest.dropLast
        if inner = [] then some []
        else (splitComma inner).mapM
          (fun item => parseIntChars (item.dropWhile (fun c => c = ' ')))
      else none
  | _ => none

/-- Parse a rendered integer-list literal from a string. -/
def parseNums (s : String) : Option (List Int) :=
  parseNumsChars s.data

example : parseNums "[]" = some [] := rfl
example : parseNums "[1, 2, 24]" = some [1, 2, 24] := by decide
example : parseNums "[-3]" = some [-3] := by decide

/-! ## Rendering `variables.tf`

`CloudBooterWorkflow._render_variables_tf` is one Python f-string.  The
`generated` parameter stands for the `time.ctime()` call at its top: the
source reads the ambient clock there, so the embedding makes that input
explicit.  Braces that are literal text in the template are written with
`\x7b`/`\x7d` escapes.
-/

/-- Embeds `CloudBooterWorkflow._render_variables_tf`. -/
def renderVariablesTf (ctx : OciContext) (planned : PlannedConfig)
    (generated : String) : String :=
  "# Oracle Cloud Infrastructure Terraform Variables\n" ++
  "# Generated: " ++
  generated ++
  "\n" ++
  "# Configuration: " ++
  intLit planned.amd_micro_instance_count ++
  "x AMD + " ++
  intLit planned.arm_flex_instance_count ++
  "x ARM instances\n" ++
  "\n" ++
  "locals \x7b\n" ++
  "  # Core identifiers\n" ++
  "  tenancy_ocid    = \"" ++
  ctx.tenancy_ocid ++
  "\"\n" ++
  "  compartment_id  = \"" ++
  ctx.tenancy_ocid ++
  "\"\n" ++
  "  user_ocid       = \"" ++
  (ctx.user_ocid.getD "") ++
  "\"\n" ++
  "  region          = \"" ++
  ctx.region ++
  "\"\n" ++
  "  \n" ++
  "  # Ubuntu Images (region-specific)\n" ++
  "  ubuntu_x86_image_ocid = \"" ++
  (ctx.ubuntu_x86_image_ocid.getD "") ++
  "\"\n" ++
  "  ubuntu_arm_image_ocid = \"" ++
  (ctx.ubuntu_arm_image_ocid.getD "") ++
  "\"\n" ++
  "  \n" ++
  "  # SSH Configuration\n" ++
  "  ssh_pubkey_path      = pathexpand(\"./ssh_keys/id_rsa.pub\")\n" ++
  "  ssh_pubkey_data      = file(pathexpand(\"./ssh_keys/id_rsa.pub\"))\n" ++
  "  ssh_private_key_path = pathexpand(\"./ssh_keys/id_rsa\")\n" ++
  "  \n" ++
  "  # AMD x86 Micro Instances Configuration\n" ++
  "  amd_micro_instance_count      = " ++
  intLit planned.amd_micro_instance_count ++
  "\n" ++
  "  amd_micro_boot_volume_size_gb = " ++
  intLit planned.amd_micro_boot_volume_size_gb ++
  "\n" ++
  "  amd_micro_hostnames           = " ++
  q planned.amd_micro_hostnames ++
  "\n" ++
  "  amd_block_volume_size_gb      = " ++
  intLit planned.amd_block_volume_size_gb ++
  "\n" ++
  "  \n" ++
  "  # ARM A1 Flex Instances Configuration\n" ++
  "  arm_flex_instance_count       = " ++
  intLit planned.arm_flex_instance_count ++
  "\n" ++
  "  arm_flex_ocpus_per_instance   = " ++
  nums planned.arm_flex_ocpus_per_instance ++
  "\n" ++
  "  arm_flex_memory_per_instance  = " ++
  nums planned.arm_flex_memory_per_instance ++
  "\n" ++
  "  arm_flex_boot_volume_size_gb  = " ++
  nums planned.arm_flex_boot_volume_size_gb ++
  "\n" ++
  "  arm_flex_hostnames            = " ++
  q planned.arm_flex_hostnames ++
  "\n" ++
  "  arm_block_volume_sizes        = " ++
  nums planned.arm_block_volume_sizes ++
  "\n" ++
  "  \n" ++
  "  # Storage calculations\n" ++
  "  total_amd_storage = local.amd_micro_instance_count * local.amd_micro_boot_volume_size_gb\n" ++
  "  total_arm_storage = local.arm_flex_instance_count > 0 ? sum(local.arm_flex_boot_volume_size_gb) : 0\n" ++
  "  total_block_storage = (local.amd_micro_instance_count * local.amd_block_volume_size_gb) + (local.arm_flex_instance_count > 0 ? sum(local.arm_block_volume_sizes) : 0)\n" ++
  "  total_storage = local.total_amd_storage + local.total_arm_storage + local.total_block_storage\n" ++
  "\x7d\n" ++
  "\n" ++
  "# Free Tier Limits\n" ++
  "variable \"free_tier_max_storage_gb\" \x7b\n" ++
  "  description = \"Maximum storage for Oracle Free Tier\"\n" ++
  "  type        = number\n" ++
  "  default     = " ++
  intLit FREE_TIER_MAX_STORAGE_GB ++
  "\n" ++
  "\x7d\n" ++
  "\n" ++
  "variable \"free_tier_max_arm_ocpus\" \x7b\n" ++
  "  description = \"Maximum ARM OCPUs for Oracle Free Tier\"\n" ++
  "  type        = number\n" ++
  "  default     = " ++
  intLit FREE_TIER_MAX_ARM_OCPUS ++
  "\n" ++
  "\x7d\n" ++
  "\n" ++
  "variable \"free_tier_max_arm_memory_gb\" \x7b\n" ++
  "  description = \"Maximum ARM memory for Oracle Free Tier\"\n" ++
  "  type        = number\n" ++
  "  default     = " ++
  intLit FREE_TIER_MAX_ARM_MEMORY_GB ++
  "\n" ++
  "\x7d\n" ++
  "\n" ++
  "# Validation checks\n" ++
  "check \"storage_limit\" \x7b\n" ++
  "  assert \x7b\n" ++
  "    condition     = local.total_storage <= var.free_tier_max_storage_gb\n" ++
  "    error_message = \"Total storage ($\x7blocal.total_storage\x7dGB) exceeds Free Tier limit ($\x7bvar.free_tier_max_storage_gb\x7dGB)\"\n" ++
  "  \x7d\n" ++
  "\x7d\n" ++
  "\n" ++
  "check \"arm_ocpu_limit\" \x7b\n" ++
  "  assert \x7b\n" ++
  "    condition     = local.arm_flex_instance_count == 0 || sum(local.arm_flex_ocpus_per_instance) <= var.free_tier_max_arm_ocpus\n" ++
  "    error_message = \"Total ARM OCPUs exceed Free Tier limit ($\x7bvar.free_tier_max_arm_ocpus\x7d)\"\n" ++
  "  \x7d\n" ++
  "\x7d\n" ++
  "\n" ++
  "check \"arm_memory_limit\" \x7b\n" ++
  "  assert \x7b\n" ++
  "    condition     = local.arm_flex_instance_count == 0 || sum(local.arm_flex_memory_per_instance) <= var.free_tier_max_arm_memory_gb\n" ++
  "    error_message = \"Total ARM memory exceeds Free Tier limit ($\x7bvar.free_tier_max_arm_memory_gb\x7dGB)\"\n" ++
  "  \x7d\n" ++
  "\x7d\n"

/-- The exact numeric literal substrings `_render_variables_tf` interpolates
into the `locals` block, one field per slot. -/
structure RenderedNumerics where
  amd_count_lit : String
  amd_boot_lit : String
  amd_block_lit : String
  arm_count_lit : String
  arm_ocpus_lit : String
  arm_memory_lit : String
  arm_boot_lit : String
  arm_blocks_lit : String
deriving DecidableEq

/-- The numeric literals the renderer prints for a given `PlannedConfig`. -/
def renderedNumerics (planned : PlannedConfig) : RenderedNumerics :=
  { amd_count_lit := intLit planned.amd_micro_instance_count
    amd_boot_lit := intLit planned.amd_micro_boot_volume_size_gb
    amd_block_lit := intLit planned.amd_block_volume_size_gb
    arm_count_lit := intLit planned.arm_flex_instance_count
    arm_ocpus_lit := nums planned.arm_flex_ocpus_per_instance
    arm_memory_lit := nums planned.arm_flex_memory_per_instance
    arm_boot_lit := nums planned.arm_flex_boot_volume_size_gb
    arm_blocks_lit := nums planned.arm_block_volume_sizes }

/-- The numeric payload of a `PlannedConfig`: everything the renderer prints
as a number (counts, sizes, OCPU and memory lists). -/
structure PlannedNumerics where
  amd_count : Int
  amd_boot : Int
  amd_block : Int
  arm_count : Int
  arm_ocpus : List Int
  arm_memory : List Int
  arm_boot : List Int
  arm_blocks : List Int
deriving DecidableEq

/-- The numeric payload of a `PlannedConfig`. -/
def plannedNumerics (planned : PlannedConfig) : PlannedNumerics :=
  { amd_count := planned.amd_micro_instance_count
    amd_boot := planned.amd_micro_boot_volume_size_gb
    amd_block := planned.amd_block_volume_size_gb
    arm_count := planned.arm_flex_instance_count
    arm_ocpus := planned.arm_flex_ocpus_per_instance
    arm_memory := planned.arm_flex_memory_per_instance
    arm_boot := planned.arm_flex_boot_volume_size_gb
    arm_blocks := planned.arm_block_volume_sizes }

/-- Re-parse the numeric literals of the rendered text back into numbers. -/
def reparseNumerics (r : RenderedNumerics) : Option PlannedNumerics := do
  let amd_count ← parseInt r.amd_count_lit
  let amd_boot ← parseInt r.amd_boot_lit
  let amd_block ← parseInt r.amd_block_lit
  let arm_count ← parseInt r.arm_count_lit
  let arm_ocpus ← parseNums r.arm_ocpus_lit
  let arm_memory ← parseNums r.arm_memory_lit
  let arm_boot ← parseNums r.arm_boot_lit
  let arm_blocks ← parseNums r.arm_blocks_lit
  pure { amd_count, amd_boot, amd_block, arm_count,
         arm_ocpus, arm_memory, arm_boot, arm_blocks }

/-- The `_render_variables_tf` template with the interpolated numeric-literal
and hostname-list slots abstracted out: `renderVariablesTf` is exactly this
template applied to the literals of `renderedNumerics`. -/
def renderAssemble (ctx : OciContext) (generated : String)
    (r : RenderedNumerics) (amdHostsLit armHostsLit : String) : String :=
  "# Oracle Cloud Infrastructure Terraform Variables\n" ++
  "# Generated: " ++
  generated ++
  "\n" ++
  "# Configuration: " ++
  r.amd_count_lit ++
  "x AMD + " ++
  r.arm_count_lit ++
  "x ARM instances\n" ++
  "\n" ++
  "locals \x7b\n" ++
  "  # Core identifiers\n" ++
  "  tenancy_ocid    = \"" ++
  ctx.tenancy_ocid ++
  "\"\n" ++
  "  compartment_id  = \"" ++
  ctx.tenancy_ocid ++
  "\"\n" ++
  "  user_ocid       = \"" ++
  (ctx.user_ocid.getD "") ++
  "\"\n" ++
  "  region          = \"" ++
  ctx.region ++
  "\"\n" ++
  "  \n" ++
  "  # Ubuntu Images (region-specific)\n" ++
  "  ubuntu_x86_image_ocid = \"" ++
  (ctx.ubuntu_x86_image_ocid.getD "") ++
  "\"\n" ++
  "  ubuntu_arm_image_ocid = \"" ++
  (ctx.ubuntu_arm_image_ocid.getD "") ++
  "\"\n" ++
  "  \n" ++
  "  # SSH Configuration\n" ++
  "  ssh_pubkey_path      = pathexpand(\"./ssh_keys/id_rsa.pub\")\n" ++
  "  ssh_pubkey_data      = file(pathexpand(\"./ssh_keys/id_rsa.pub\"))\n" ++
  "  ssh_private_key_path = pathexpand(\"./ssh_keys/id_rsa\")\n" ++
  "  \n" ++
  "  # AMD x86 Micro Instances Configuration\n" ++
  "  amd_micro_instance_count      = " ++
  r.amd_count_lit ++
  "\n" ++
  "  amd_micro_boot_volume_size_gb = " ++
  r.amd_boot_lit ++
  "\n" ++
  "  amd_micro_hostnames           = " ++
  amdHostsLit ++
  "\n" ++
  "  amd_block_volume_size_gb      = " ++
  r.amd_block_lit ++
  "\n" ++
  "  \n" ++
  "  # ARM A1 Flex Instances Configuration\n" ++
  "  arm_flex_instance_count       = " ++
  r.arm_count_lit ++
  "\n" ++
  "  arm_flex_ocpus_per_instance   = " ++
  r.arm_ocpus_lit ++
  "\n" ++
  "  arm_flex_memory_per_instance  = " ++
  r.arm_memory_lit ++
  "\n" ++
  "  arm_flex_boot_volume_size_gb  = " ++
  r.arm_boot_lit ++
  "\n" ++
  "  arm_flex_hostnames            = " ++
  armHostsLit ++
  "\n" ++
  "  arm_block_volume_sizes        = " ++
  r.arm_blocks_lit ++
  "\n" ++
  "  \n" ++
  "  # Storage calculations\n" ++
  "  total_amd_storage = local.amd_micro_instance_count * local.amd_micro_boot_volume_size_gb\n" ++
  "  total_arm_storage = local.arm_flex_instance_count > 0 ? sum(local.arm_flex_boot_volume_size_gb) : 0\n" ++
  "  total_block_storage = (local.amd_micro_instance_count * local.amd_block_volume_size_gb) + (local.arm_flex_instance_count > 0 ? sum(local.arm_block_volume_sizes) : 0)\n" ++
  "  total_storage = local.total_amd_storage + local.total_arm_storage + local.total_block_storage\n" ++
  "\x7d\n" ++
  "\n" ++
  "# Free Tier Limits\n" ++
  "variable \"free_tier_max_storage_gb\" \x7b\n" ++
  "  description = \"Maximum storage for Oracle Free Tier\"\n" ++
  "  type        = number\n" ++
  "  default     = " ++
  intLit FREE_TIER_MAX_STORAGE_GB ++
  "\n" ++
  "\x7d\n" ++
  "\n" ++
  "variable \"free_tier_max_arm_ocpus\" \x7b\n" ++
  "  description = \"Maximum ARM OCPUs for Oracle Free Tier\"\n" ++
  "  type        = number\n" ++
  "  default     = " ++
  intLit FREE_TIER_MAX_ARM_OCPUS ++
  "\n" ++
  "\x7d\n" ++
  "\n" ++
  "variable \"free_tier_max_arm_memory_gb\" \x7b\n" ++
  "  description = \"Maximum ARM memory for Oracle Free Tier\"\n" ++
  "  type        = number\n" ++
  "  default     = " ++
  intLit FREE_TIER_MAX_ARM_MEMORY_GB ++
  "\n" ++
  "\x7d\n" ++
  "\n" ++
  "# Validation checks\n" ++
  "check \"storage_limit\" \x7b\n" ++
  "  assert \x7b\n" ++
  "    condition     = local.total_storage <= var.free_tier_max_storage_gb\n" ++
  "    error_message = \"Total storage ($\x7blocal.total_storage\x7dGB) exceeds Free Tier limit ($\x7bvar.free_tier_max_storage_gb\x7dGB)\"\n" ++
  "  \x7d\n" ++
  "\x7d\n" ++
  "\n" ++
  "check \"arm_ocpu_limit\" \x7b\n" ++
  "  assert \x7b\n" ++
  "    condition     = local.arm_flex_instance_count == 0 || sum(local.arm_flex_ocpus_per_instance) <= var.free_tier_max_arm_ocpus\n" ++
  "    error_message = \"Total ARM OCPUs exceed Free Tier limit ($\x7bvar.free_tier_max_arm_ocpus\x7d)\"\n" ++
  "  \x7d\n" ++
  "\x7d\n" ++
  "\n" ++
  "check \"arm_memory_limit\" \x7b\n" ++
  "  assert \x7b\n" ++
  "    condition     = local.arm_flex_instance_count == 0 || sum(local.arm_flex_memory_per_instance) <= var.free_tier_max_arm_memory_gb\n" ++
  "    error_message = \"Total ARM memory exceeds Free Tier limit ($\x7bvar.free_tier_max_arm_memory_gb\x7dGB)\"\n" ++
  "  \x7d\n" ++
  "\x7d\n"

/-! ## Violation predicates

Named forms of the individual checks, used to state the spec claims.
-/

/-- Check 1: the machine type is not the designated free type. -/
abbrev gcpMachineViolation (machine_type : String) : Prop :=
  machine_type ≠ LIMITS.free_machine_type

/-- Check 2: the region is outside the free-compute-region set. -/
abbrev gcpRegionViolation (region : String) : Prop :=
  region ∉ LIMITS.free_compute_regions

/-- Check 3: the boot disk exceeds the free standard-PD cap. -/
abbrev gcpDiskViolation (boot_disk_size_gb : Int) : Prop :=
  boot_disk_size_gb > LIMITS.free_standard_pd_gb

/-- Check 4 as the source evaluates it: a storage region is given, is
non-empty (Python truthiness), and is outside the free-storage-region set. -/
def gcpStorageViolation (storage_region : Option String) : Prop :=
  match storage_region with
  | some s => s ≠ "" ∧ s ∉ LIMITS.free_storage_regions
  | none => False

instance (storage_region : Option String) :
    Decidable (gcpStorageViolation storage_region) :=
  match storage_region with
  | some s => inferInstanceAs (Decidable (s ≠ "" ∧ s ∉ LIMITS.free_storage_regions))
  | none => isFalse (fun h => h)

/-- OCI condition (a): more AMD instances than remain available. -/
abbrev ociAmdOverflow (res : ExistingResources) (planned : PlannedConfig) : Prop :=
  planned.amd_micro_instance_count > (availableResources res).1

/-- OCI condition (b): more ARM OCPUs than remain available. -/
abbrev ociOcpuOverflow (res : ExistingResources) (planned : PlannedConfig) : Prop :=
  planned.arm_flex_ocpus_per_instance.sum > (availableResources res).2.1

/-- OCI condition (c): more ARM memory than remains available. -/
abbrev ociMemoryOverflow (res : ExistingResources) (planned : PlannedConfig) : Prop :=
  planned.arm_flex_memory_per_instance.sum > (availableResources res).2.2.1

/-- OCI condition (d): more storage than remains available. -/
abbrev ociStorageOverflow (res : ExistingResources) (planned : PlannedConfig) : Prop :=
  proposedStorage planned > (availableResources res).2.2.2

/-- OCI condition (e): the existing VCN count already exceeds the cap. -/
abbrev ociVcnOverflow (res : ExistingResources) : Prop :=
  (res.vcns.length : Int) > FREE_TIER_MAX_VCNS

/-- A `PlannedConfig` fits inside the remaining free allocation: none of the
four arithmetic overflow conditions of `_validate_proposed_config` holds. -/
abbrev fitsFreeAllocation (res : ExistingResources) (planned : PlannedConfig) : Prop :=
  ¬ ociAmdOverflow res planned ∧ ¬ ociOcpuOverflow res planned ∧
    ¬ ociMemoryOverflow res planned ∧ ¬ ociStorageOverflow res planned

/-- The `PlannedConfig` list-length invariant of the flexible class, as the
spec states it: every flexible-class list has length equal to the flexible
instance count. -/
abbrev flexListsConsistent (planned : PlannedConfig) : Prop :=
  (planned.arm_flex_ocpus_per_instance.length : Int) = planned.arm_flex_instance_count ∧
  (planned.arm_flex_memory_per_instance.length : Int) = planned.arm_flex_instance_count ∧
  (planned.arm_flex_boot_volume_size_gb.length : Int) = planned.arm_flex_instance_count ∧
  (planned.arm_flex_hostnames.length : Int) = planned.arm_flex_instance_count ∧
  (planned.arm_block_volume_sizes.length : Int) = planned.arm_flex_instance_count

/-! ## Concrete fixtures

Sample inventories and configurations used by the concrete-scenario parts
of the claims and by witnesses and counterexamples.
-/

/-- An inventory holding two existing free-tier AMD instances and nothing
else (the `used = {amd: 2, arm_ocpu: 0}` scenario). -/
def resTwoAmd : ExistingResources :=
  { amd_instances :=
      [{ display_name := "amd-instance-1", lifecycle_state := "RUNNING",
         shape := FREE_TIER_AMD_SHAPE, public_ip := "none", private_ip := "10.0.0.2" },
       { display_name := "amd-instance-2", lifecycle_state := "RUNNING",
         shape := FREE_TIER_AMD_SHAPE, public_ip := "none", private_ip := "10.0.0.3" }] }

/-- A proposal for one additional AMD instance and nothing else. -/
def planOneAmd : PlannedConfig :=
  { amd_micro_instance_count := 1
    amd_micro_boot_volume_size_gb := 50
    amd_micro_hostnames := ["amd-instance-3"]
    amd_block_volume_size_gb := 0
    arm_flex_instance_count := 0
    arm_flex_ocpus_per_instance := []
    arm_flex_memory_per_instance := []
    arm_flex_boot_volume_size_gb := []
    arm_flex_hostnames := []
    arm_block_volume_sizes := [] }

/-- A proposal for zero AMD instances and one 4-OCPU ARM instance. -/
def planFourArmOcpus : PlannedConfig :=
  { amd_micro_instance_count := 0
    amd_micro_boot_volume_size_gb := 50
    amd_micro_hostnames := []
    amd_block_volume_size_gb := 0
    arm_flex_instance_count := 1
    arm_flex_ocpus_per_instance := [4]
    arm_flex_memory_per_instance := [24]
    arm_flex_boot_volume_size_gb := [47]
    arm_flex_hostnames := ["arm-instance-1"]
    arm_block_volume_sizes := [0] }

/-- An inventory with one 160 GB boot volume already in use. -/
def resBigVolume : ExistingResources :=
  { boot_volumes := [{ display_name := "bv-1", size_in_gbs := 160 }] }

/-- The accepted `_plan_custom` dialogue on a fresh account that asks for two
ARM instances, gives the first one the whole 4-OCPU/24 GB budget, and is then
still forced by the `IntRange(1, max(1, rem))` floors to give the second
instance 1 OCPU and 1 GB. -/
def customGreedyInputs : CustomInputs :=
  { amd_count := 0
    amd_boot := 50
    amd_hostnames := []
    arm_count := 2
    arm_specs :=
      [{ hostname := "arm-instance-1", ocpus := 4, memory := 24, boot := 50 },
       { hostname := "arm-instance-2", ocpus := 1, memory := 1, boot := 50 }] }

/-- A `PlannedConfig` whose flexible-class lists disagree with its flexible
instance count (two instances declared, one list entry each). -/
def mismatchedPlan : PlannedConfig :=
  { amd_micro_instance_count := 0
    amd_micro_boot_volume_size_gb := 50
    amd_micro_hostnames := []
    amd_block_volume_size_gb := 0
    arm_flex_instance_count := 2
    arm_flex_ocpus_per_instance := [1]
    arm_flex_memory_per_instance := [6]
    arm_flex_boot_volume_size_gb := [50]
    arm_flex_hostnames := ["arm-instance-1"]
    arm_block_volume_sizes := [0] }

/-- A sample rendering context. -/
def sampleCtx : OciContext :=
  { tenancy_ocid := "ocid1.tenancy.oc1..sample"
    user_ocid := none
    region := "us-ashburn-1"
    availability_domain := "AD-1"
    ubuntu_x86_image_ocid := none
    ubuntu_arm_image_ocid := some "ocid1.image.oc1..arm" }

/-! ## Round-trip lemmas for decimal literals -/

lemma natLitAux_zero (fuel : Nat) : natLitAux fuel 0 = [] := by
  cases fuel <;> rfl

lemma decimalValue_append_digit (l : List Char) (c : Char) :
    decimalValue (l ++ [c]) = decimalValue l * 10 + digitVal c := by
  simp [decimalValue, List.foldl_append]

lemma digitVal_charOfDigit {d : Nat} (h : d < 10) :
    digitVal (charOfDigit d) = d := by
  interval_cases d <;> rfl

lemma charOfDigit_isDigit (d : Nat) : (charOfDigit d).isDigit = true := by
  rcases d with _ | _ | _ | _ | _ | _ | _ | _ | _ | d <;> rfl

lemma decimalValue_natLitAux :
    ∀ fuel n, n ≤ fuel → decimalValue (natLitAux fuel n) = n := by
  intro fuel
  induction fuel with
  | zero =>
      intro n hn
      interval_cases n
      rfl
  | succ f ih =>
      intro n hn
      match n with
      | 0 => simp [natLitAux_zero, decimalValue]
      | m + 1 =>
          have hdiv : (m + 1) / 10 ≤ f := by omega
          have hmod : (m + 1) % 10 < 10 := by omega
          calc decimalValue (natLitAux (f + 1) (m + 1))
              = decimalValue (natLitAux f ((m + 1) / 10)) * 10
                  + digitVal (charOfDigit ((m + 1) % 10)) := by
                simp [natLitAux, decimalValue_append_digit]
            _ = (m + 1) / 10 * 10 + (m + 1) % 10 := by
                rw [ih _ hdiv, digitVal_charOfDigit hmod]
            _ = m + 1 := by omega

lemma natLitAux_fuel_zero (n : Nat) : natLitAux 0 n = [] := by
  cases n <;> rfl

lemma natLitAux_all_digits :
    ∀ fuel n, (natLitAux fuel n).all (fun c => c.isDigit) = true := by
  intro fuel
  induction fuel with
  | zero => intro n; rw [natLitAux_fuel_zero]; rfl
  | succ f ih =>
      intro n
      match n with
      | 0 => simp [natLitAux_zero]
      | m + 1 => simp [natLitAux, List.all_append, ih, charOfDigit_isDigit]

lemma natLitAux_ne_nil :
    ∀ fuel n, 1 ≤ n → n ≤ fuel → natLitAux fuel n ≠ [] := by
  intro fuel n h1 h2
  cases fuel with
  | zero => omega
  | succ f =>
      cases n with
      | zero => omega
      | succ m => simp [natLitAux]

lemma natLitChars_ne_nil (n : Nat) : natLitChars n ≠ [] := by
  unfold natLitChars
  split
  · simp
  · exact natLitAux_ne_nil n n (by omega) le_rfl

lemma natLitChars_all_digits (n : Nat) :
    (natLitChars n).all (fun c => c.isDigit) = true := by
  unfold natLitChars
  split
  · rfl
  · exact natLitAux_all_digits n n

lemma parseNatChars_natLitChars (n : Nat) :
    parseNatChars (natLitChars n) = some n := by
  unfold natLitChars
  split
  · subst n; rfl
  · next h =>
      unfold parseNatChars
      rw [if_pos ⟨natLitAux_ne_nil n n (by omega) le_rfl, natLitAux_all_digits n n⟩,
        decimalValue_natLitAux n n le_rfl]

lemma isDigit_ne_dash {c : Char} (h : c.isDigit = true) : ¬ c = '-' := by
  rintro rfl
  exact absurd h (by decide)

lemma isDigit_ne_comma {c : Char} (h : c.isDigit = true) : ¬ c = ',' := by
  rintro rfl
  exact absurd h (by decide)

lemma isDigit_ne_space {c : Char} (h : c.isDigit = true) : ¬ c = ' ' := by
  rintro rfl
  exact absurd h (by decide)

lemma parseIntChars_cons_dash (rest : List Char) :
    parseIntChars ('-' :: rest) =
      (parseNatChars rest).map (fun (n : Nat) => -(n : Int)) := by
  simp [parseIntChars]

lemma parseIntChars_cons_of_ne_dash {c : Char} (rest : List Char) (h : ¬ c = '-') :
    parseIntChars (c :: rest) =
      (parseNatChars (c :: rest)).map (fun (n : Nat) => (n : Int)) := by
  simp [parseIntChars, h]

lemma parseIntChars_intLitChars (i : Int) :
    parseIntChars (intLitChars i) = some i := by
  unfold intLitChars
  split
  · next hneg =>
      rw [parseIntChars_cons_dash, parseNatChars_natLitChars]
      simp only [Option.map_some', Option.some.injEq]
      omega
  · next hpos =>
      obtain ⟨c, rest, hl⟩ := List.exists_cons_of_ne_nil (natLitChars_ne_nil i.toNat)
      have hdig : c.isDigit = true := by
        have hall := natLitChars_all_digits i.toNat
        rw [hl, List.all_cons, Bool.and_eq_true] at hall
        exact hall.1
      rw [hl, parseIntChars_cons_of_ne_dash rest (isDigit_ne_dash hdig), ← hl,
        parseNatChars_natLitChars]
      simp only [Option.map_some', Option.some.injEq]
      omega

lemma parseInt_intLit (i : Int) : parseInt (intLit i) = some i :=
  parseIntChars_intLitChars i

/-! ## Round-trip lemmas for rendered integer-list literals -/

lemma splitComma_ne_nil : ∀ l : List Char, splitComma l ≠ [] := by
  intro l
  induction l with
  | nil => simp [splitComma]
  | cons c rest ih =>
      rw [splitComma]
      split
      · simp
      · cases hsp : splitComma rest with
        | nil => exact absurd hsp ih
        | cons h t => simp [hsp]

lemma splitComma_cons_comma (rest : List Char) :
    splitComma (',' :: rest) = [] :: splitComma rest := by
  rw [splitComma]
  simp

lemma splitComma_cons_of_ne_comma {c : Char} (rest : List Char) (hc : ¬ c = ',')
    {h : List Char} {t : List (List Char)} (hsp : splitComma rest = h :: t) :
    splitComma (c :: rest) = (c :: h) :: t := by
  rw [splitComma, if_neg hc, hsp]

lemma splitComma_append_of_no_comma :
    ∀ (x r : List Char) (h : List Char) (t : List (List Char)),
      (∀ c ∈ x, ¬ c = ',') → splitComma r = h :: t →
      splitComma (x ++ r) = (x ++ h) :: t := by
  intro x
  induction x with
  | nil => intro r h t _ hsp; simpa using hsp
  | cons c x' ih =>
      intro r h t hx hsp
      have hc : ¬ c = ',' := hx c (by simp)
      have hx' : ∀ a ∈ x', ¬ a = ',' := fun a ha => hx a (by simp [ha])
      rw [List.cons_append,
        splitComma_cons_of_ne_comma (x' ++ r) hc (ih r h t hx' hsp)]
      simp

/-- Characters of a rendered item that matter for splitting: no comma, and
no space (so that dropping the separator space recovers the item exactly). -/
def sepSafe (x : List Char) : Prop :=
  ∀ c ∈ x, ¬ c = ',' ∧ ¬ c = ' '

lemma dropWhile_space_of_sepSafe {x : List Char} (hx : sepSafe x) :
    x.dropWhile (fun c => c = ' ') = x := by
  cases x with
  | nil => rfl
  | cons c rest =>
      rw [List.dropWhile_cons]
      have := (hx c (by simp)).2
      simp [this]

lemma intLitChars_sepSafe (i : Int) : sepSafe (intLitChars i) := by
  intro c hc
  unfold intLitChars at hc
  have hdig : c.isDigit = true ∨ c = '-' := by
    split at hc
    · rw [List.mem_cons] at hc
      rcases hc with rfl | hc
      · exact Or.inr rfl
      · have hall := natLitChars_all_digits i.natAbs
        rw [List.all_eq_true] at hall
        exact Or.inl (hall c hc)
    · have hall := natLitChars_all_digits i.toNat
      rw [List.all_eq_true] at hall
      exact Or.inl (hall c hc)
  rcases hdig with hdig | rfl
  · exact ⟨isDigit_ne_comma hdig, isDigit_ne_space hdig⟩
  · exact ⟨by decide, by decide⟩

lemma intLitChars_ne_nil (i : Int) : intLitChars i ≠ [] := by
  unfold intLitChars
  split
  · simp
  · exact natLitChars_ne_nil i.toNat

lemma splitComma_joinSep_dropWhile :
    ∀ ls : List (List Char), (∀ x ∈ ls, sepSafe x) → ls ≠ [] →
      (splitComma (joinSep ls)).map (fun item => item.dropWhile (fun c => c = ' '))
        = ls := by
  intro ls
  induction ls with
  | nil => intro _ h; exact absurd rfl h
  | cons x ls' ih =>
      intro hsafe _
      have hx : sepSafe x := hsafe x (by simp)
      have hxnc : ∀ c ∈ x, ¬ c = ',' := fun c hc => (hx c hc).1
      cases ls' with
      | nil =>
          have : splitComma (joinSep [x]) = [x] := by
            have h0 : splitComma ([] : List Char) = [] :: [] := rfl
            have := splitComma_append_of_no_comma x [] [] [] hxnc h0
            simpa [joinSep] using this
          rw [this]
          simp [dropWhile_space_of_sepSafe hx]
      | cons y rest =>
          have hsafe' : ∀ a ∈ y :: rest, sepSafe a :=
            fun a ha => hsafe a (by simp [ha])
          obtain ⟨h, t, hsp⟩ :
              ∃ h t, splitComma (joinSep (y :: rest)) = h :: t := by
            cases hs : splitComma (joinSep (y :: rest)) with
            | nil => exact absurd hs (splitComma_ne_nil _)
            | cons h t => exact ⟨h, t, rfl⟩
          have hspace :
              splitComma (' ' :: joinSep (y :: rest)) = (' ' :: h) :: t :=
            splitComma_cons_of_ne_comma _ (by decide) hsp
          have hcomma :
              splitComma (',' :: ' ' :: joinSep (y :: rest)) =
                [] :: (' ' :: h) :: t := by
            rw [splitComma_cons_comma, hspace]
          have hall :
              splitComma (joinSep (x :: y :: rest)) = (x ++ []) :: (' ' :: h) :: t := by
            rw [joinSep]
            exact splitComma_append_of_no_comma x _ _ _ hxnc hcomma
          have ihres := ih hsafe' (by simp)
          rw [hsp] at ihres
          simp only [List.map_cons] at ihres ⊢
          rw [hall]
          simp only [List.map_cons, List.append_nil]
          rw [dropWhile_space_of_sepSafe hx]
          have hdw : (' ' :: h).dropWhile (fun c => c = ' ') =
              h.dropWhile (fun c => c = ' ') := by
            rw [List.dropWhile_cons]
            simp
          rw [hdw]
          exact congrArg (x :: ·) ihres

lemma joinSep_map_intLitChars_ne_nil (x : Int) (l : List Int) :
    joinSep ((x :: l).map intLitChars) ≠ [] := by
  cases l with
  | nil => simpa [joinSep] using intLitChars_ne_nil x
  | cons y rest => simp [joinSep]

lemma mapM_comp_map {α β γ : Type} (g : α → β) (f : β → Option γ) :
    ∀ xs : List α, List.mapM' f (xs.map g) = List.mapM' (fun a => f (g a)) xs := by
  intro xs
  induction xs with
  | nil => rfl
  | cons a xs ih => simp only [List.map_cons, List.mapM', ih]

lemma mapM_parse_of_items :
    ∀ l : List Int,
      List.mapM' (fun item => parseIntChars item) (l.map intLitChars) = some l := by
  intro l
  induction l with
  | nil => rfl
  | cons x rest ih =>
      simp only [List.map_cons, List.mapM']
      rw [parseIntChars_intLitChars, ih]
      rfl

lemma parseNumsChars_bracketed (rest : List Char) :
    parseNumsChars ('[' :: rest) =
      (if rest.getLast? = some ']' then
        let inner := rest.dropLast
        if inner = [] then some []
        else (splitComma inner).mapM
          (fun item => parseIntChars (item.dropWhile (fun c => c = ' ')))
      else none) := by
  rfl

lemma parseNums_nums (l : List Int) : parseNums (nums l) = some l := by
  have hdata : (nums l).data = numsChars l := rfl
  unfold parseNums
  rw [hdata]
  unfold numsChars
  rw [parseNumsChars_bracketed (joinSep (List.map intLitChars l) ++ [']']),
    List.getLast?_concat, if_pos rfl]
  simp only [List.dropLast_concat]
  cases l with
  | nil => rfl
  | cons x rest =>
      rw [if_neg (joinSep_map_intLitChars_ne_nil x rest)]
      have hsafe : ∀ y ∈ (x :: rest).map intLitChars, sepSafe y := by
        intro y hy
        rw [List.mem_map] at hy
        obtain ⟨i, _, rfl⟩ := hy
        exact intLitChars_sepSafe i
      have hsplit := splitComma_joinSep_dropWhile ((x :: rest).map intLitChars)
        hsafe (by simp)
      rw [← List.mapM'_eq_mapM]
      calc List.mapM' (fun item => parseIntChars (item.dropWhile (fun c => c = ' ')))
            (splitComma (joinSep ((x :: rest).map intLitChars)))
          = List.mapM' (fun item => parseIntChars item)
              ((splitComma (joinSep ((x :: rest).map intLitChars))).map
                (fun item => item.dropWhile (fun c => c = ' '))) := by
            rw [mapM_comp_map]
        _ = some (x :: rest) := by rw [hsplit, mapM_parse_of_items]

/-! ## Claim theorems -/

/-- C1 (counterexample).  The claim reads the storage-region check as firing
for every supplied (`≠ None`) region outside the free set.  The source guard
`if storage_region and ...` treats the empty string as "not supplied":
`storage_region=""` is supplied and lies outside the free-storage-region set,
yet the validator returns no violation at all — the claim predicts exactly
one ERROR entry for this input. -/
theorem gcp_validator_empty_storage_region_counterexample :
    (some "" : Option String) ≠ none ∧
    "" ∉ LIMITS.free_storage_regions ∧
    validate_proposed_config "e2-micro" "us-central1" 20 (some "") false = [] := by
  refine ⟨by simp, by decide, by decide⟩

/-- C1 (amended).  With `allow_paid_resources = false`, the GCP validator
returns exactly one ERROR entry per individually violated check — machine
type, compute region, boot-disk size, and storage region (where a storage
region only counts as supplied when it is non-`None` and non-empty, following
the source's truthiness test) — and returns `[]` iff none of the four checks
is violated. -/
theorem gcp_validator_one_error_per_violated_check
    (machine_type region : String) (boot_disk_size_gb : Int)
    (storage_region : Option String) :
    ((validate_proposed_config machine_type region boot_disk_size_gb
        storage_region false).length =
      (if gcpMachineViolation machine_type then 1 else 0) +
      (if gcpRegionViolation region then 1 else 0) +
      (if gcpDiskViolation boot_disk_size_gb then 1 else 0) +
      (if gcpStorageViolation storage_region then 1 else 0)) ∧
    (validate_proposed_config machine_type region boot_disk_size_gb
        storage_region false = [] ↔
      ¬ gcpMachineViolation machine_type ∧ ¬ gcpRegionViolation region ∧
      ¬ gcpDiskViolation boot_disk_size_gb ∧ ¬ gcpStorageViolation storage_region) := by
  rcases storage_region with _ | s
  · by_cases hm : machine_type = LIMITS.free_machine_type <;>
    by_cases hrg : region ∈ LIMITS.free_compute_regions <;>
    by_cases hd : boot_disk_size_gb > LIMITS.free_standard_pd_gb <;>
    constructor <;>
    simp [validate_proposed_config, gcpMachineViolation, gcpRegionViolation,
      gcpDiskViolation, gcpStorageViolation, hm, hrg, hd]
  · by_cases hm : machine_type = LIMITS.free_machine_type <;>
    by_cases hrg : region ∈ LIMITS.free_compute_regions <;>
    by_cases hd : boot_disk_size_gb > LIMITS.free_standard_pd_gb <;>
    by_cases hs : s ≠ "" ∧ s ∉ LIMITS.free_storage_regions <;>
    constructor <;>
    simp [validate_proposed_config, gcpMachineViolation, gcpRegionViolation,
      gcpDiskViolation, gcpStorageViolation, hm, hrg, hd, hs]

lemma take6_error (lit rest : String) (hlen : 6 ≤ lit.data.length)
    (hpre : lit.data.take 6 = "ERROR:".data) :
    (lit ++ rest).data.take 6 = "ERROR:".data := by
  rw [String.data_append, List.take_append_of_le_length hlen, hpre]

/-- C10 (confirmed).  Every string the GCP validator ever returns begins
with the six characters `ERROR:`; no code path produces a `WARN:`-prefixed
(advisory) entry, so every returned violation is deployment-blocking. -/
theorem gcp_validator_errors_all_blocking
    (machine_type region : String) (boot_disk_size_gb : Int)
    (storage_region : Option String) (allow_paid_resources : Bool) :
    ∀ e ∈ validate_proposed_config machine_type region boot_disk_size_gb
        storage_region allow_paid_resources,
      e.data.take 6 = "ERROR:".data := by
  intro e he
  cases allow_paid_resources with
  | true => simp [validate_proposed_config] at he
  | false =>
      unfold validate_proposed_config at he
      simp only [Bool.false_eq_true, if_false, List.mem_append] at he
      rcases he with ((he | he) | he) | he
      · split at he
        · rw [List.mem_singleton] at he
          subst he
          simp only [String.append_assoc]
          exact take6_error _ _ (by decide) (by decide)
        · simp at he
      · split at he
        · rw [List.mem_singleton] at he
          subst he
          simp only [String.append_assoc]
          exact take6_error _ _ (by decide) (by decide)
        · simp at he
      · split at he
        · rw [List.mem_singleton] at he
          subst he
          simp only [String.append_assoc]
          exact take6_error _ _ (by decide) (by decide)
        · simp at he
      · rcases storage_region with _ | s
        · simp at he
        · simp only at he
          split at he
          · rw [List.mem_singleton] at he
            subst he
            simp only [String.append_assoc]
            exact take6_error _ _ (by decide) (by decide)
          · simp at he

/-- C10 (witness): the theorem applied to the machine-type violation entry
of a concrete invalid configuration. -/
theorem gcp_validator_errors_all_blocking_witness :
    (List.getD (validate_proposed_config "n1-standard-1" "us-central1" 20
        none false) 0 "").data.take 6 = "ERROR:".data :=
  gcp_validator_errors_all_blocking "n1-standard-1" "us-central1" 20 none false
    (List.getD (validate_proposed_config "n1-standard-1" "us-central1" 20
      none false) 0 "") (by decide)

lemma ociValidationErrors_length (res : ExistingResources) (planned : PlannedConfig) :
    (ociValidationErrors res planned).length =
      (if ociAmdOverflow res planned then 1 else 0) +
      (if ociOcpuOverflow res planned then 1 else 0) +
      (if ociMemoryOverflow res planned then 1 else 0) +
      (if ociStorageOverflow res planned then 1 else 0) +
      (if ociVcnOverflow res then 1 else 0) := by
  by_cases ha : ociAmdOverflow res planned <;>
  by_cases hb : ociOcpuOverflow res planned <;>
  by_cases hc : ociMemoryOverflow res planned <;>
  by_cases hd : ociStorageOverflow res planned <;>
  by_cases he : ociVcnOverflow res <;>
  simp [ociValidationErrors, ociAmdOverflow, ociOcpuOverflow, ociMemoryOverflow,
    ociStorageOverflow, ociVcnOverflow, ha, hb, hc, hd, he]

lemma ociValidationErrors_nil_iff (res : ExistingResources) (planned : PlannedConfig) :
    ociValidationErrors res planned = [] ↔
      ¬ ociAmdOverflow res planned ∧ ¬ ociOcpuOverflow res planned ∧
      ¬ ociMemoryOverflow res planned ∧ ¬ ociStorageOverflow res planned ∧
      ¬ ociVcnOverflow res := by
  by_cases ha : ociAmdOverflow res planned <;>
  by_cases hb : ociOcpuOverflow res planned <;>
  by_cases hc : ociMemoryOverflow res planned <;>
  by_cases hd : ociStorageOverflow res planned <;>
  by_cases he : ociVcnOverflow res <;>
  simp [ociValidationErrors, ociAmdOverflow, ociOcpuOverflow, ociMemoryOverflow,
    ociStorageOverflow, ociVcnOverflow, ha, hb, hc, hd, he]

/-- C2 (confirmed).  The OCI validator reports a violation iff at least one
of the five conditions holds — (a) AMD count over the remaining AMD budget,
(b) summed ARM OCPUs over the remaining OCPU budget, (c) summed ARM memory
over the remaining memory budget, (d) proposed total storage over the
remaining storage budget, (e) existing VCN count over the VCN cap — with
exactly one violation entry per condition that holds; and in the concrete
scenario with 2 existing AMD instances and 0 used ARM OCPUs, requesting one
more AMD instance yields exactly the "only 0 available" violation while
requesting 0 AMD plus 4 ARM OCPUs is approved. -/
theorem oci_validator_characterization
    (res : ExistingResources) (planned : PlannedConfig) :
    ((ociValidationErrors res planned).length =
      (if ociAmdOverflow res planned then 1 else 0) +
      (if ociOcpuOverflow res planned then 1 else 0) +
      (if ociMemoryOverflow res planned then 1 else 0) +
      (if ociStorageOverflow res planned then 1 else 0) +
      (if ociVcnOverflow res then 1 else 0)) ∧
    (ociValidationErrors res planned = [] ↔
      ¬ ociAmdOverflow res planned ∧ ¬ ociOcpuOverflow res planned ∧
      ¬ ociMemoryOverflow res planned ∧ ¬ ociStorageOverflow res planned ∧
      ¬ ociVcnOverflow res) ∧
    ociValidationErrors resTwoAmd planOneAmd =
      ["Cannot create 1 AMD instances, only 0 available."] ∧
    ociValidationErrors resTwoAmd planFourArmOcpus = [] := by
  exact ⟨ociValidationErrors_length res planned,
    ociValidationErrors_nil_iff res planned, by decide, by decide⟩

/-- C5 (confirmed).  With `allow_paid_resources = true` the GCP validator
returns `[]` for every machine type, region, disk size, and storage region
(checks 1-4 are suppressed entirely), while the OCI resource-exhaustion
check has no override input at all: whenever any of its five exhaustion
conditions holds, `_validate_proposed_config` rejects the configuration. -/
theorem paid_override_suppresses_checks_but_not_exhaustion :
    (∀ (machine_type region : String) (boot_disk_size_gb : Int)
        (storage_region : Option String),
      validate_proposed_config machine_type region boot_disk_size_gb
        storage_region true = []) ∧
    (∀ (res : ExistingResources) (planned : PlannedConfig),
      (ociAmdOverflow res planned ∨ ociOcpuOverflow res planned ∨
        ociMemoryOverflow res planned ∨ ociStorageOverflow res planned ∨
        ociVcnOverflow res) →
      ociValidateProposedConfig res planned ≠ .ok ()) := by
  constructor
  · intro machine_type region boot_disk_size_gb storage_region
    rfl
  · intro res planned hcond
    have hne : ociValidationErrors res planned ≠ [] := by
      rw [Ne, ociValidationErrors_nil_iff]
      tauto
    unfold ociValidateProposedConfig
    rw [if_pos hne]
    simp

/-- C5 (witness): on a concrete configuration violating every GCP check,
the override returns no violations, and a concrete over-quota OCI request
is still rejected. -/
theorem paid_override_suppresses_checks_but_not_exhaustion_witness :
    validate_proposed_config "n2-standard-2" "asia-east1" 200
      (some "europe-west1") true = [] ∧
    ociValidateProposedConfig resTwoAmd planOneAmd ≠ .ok () :=
  ⟨paid_override_suppresses_checks_but_not_exhaustion.1 "n2-standard-2"
      "asia-east1" 200 (some "europe-west1"),
    paid_override_suppresses_checks_but_not_exhaustion.2 resTwoAmd planOneAmd
      (Or.inl (by decide))⟩

/-- C8 (counterexample).  The claim says violations are always returned as a
string list and never raised.  The OCI validator does the opposite: on a
concrete over-quota proposal it raises `click.ClickException` (modelled as
`Except.error`) carrying the joined violation text, instead of returning the
list to the caller. -/
theorem oci_validator_raises_counterexample :
    ociValidateProposedConfig resTwoAmd planOneAmd =
      .error ("Free Tier validation failed:\n- " ++
        "Cannot create 1 AMD instances, only 0 available.") := by
  rfl

/-- C8 (amended).  Only the GCP validator follows the returned-list contract
(it returns its error list and the CLI caller decides exit behavior).  The
OCI validator collects all violations into a list but then raises a single
`click.ClickException` whose message joins every collected violation with
`"\n- "`; it succeeds silently iff the list is empty. -/
theorem oci_validator_raises_on_violations
    (res : ExistingResources) (planned : PlannedConfig) :
    (ociValidateProposedConfig res planned = .ok () ↔
      ociValidationErrors res planned = []) ∧
    (ociValidationErrors res planned ≠ [] →
      ociValidateProposedConfig res planned =
        .error ("Free Tier validation failed:\n- " ++
          String.intercalate "\n- " (ociValidationErrors res planned))) := by
  constructor
  · by_cases hne : ociValidationErrors res planned = [] <;>
      simp [ociValidateProposedConfig, hne]
  · intro hne
    simp [ociValidateProposedConfig, hne]

/-- C8 (witness): the amended theorem applied to a passing and recovered
from a failing concrete proposal. -/
theorem oci_validator_raises_on_violations_witness :
    ociValidateProposedConfig resTwoAmd planFourArmOcpus = .ok () ∧
    ociValidateProposedConfig resTwoAmd planOneAmd =
      .error ("Free Tier validation failed:\n- " ++
        String.intercalate "\n- " (ociValidationErrors resTwoAmd planOneAmd)) :=
  ⟨(oci_validator_raises_on_violations resTwoAmd planFourArmOcpus).1.mpr (by decide),
    (oci_validator_raises_on_violations resTwoAmd planOneAmd).2 (by decide)⟩

/-- C6 (confirmed).  The use-existing planner sets each class count to the
number of existing instances of that class, copies hostnames and the
flexible-shape sizes (OCPUs, memory) recorded in the inventory's descriptive
records (boot volumes get the free-tier minimum size), and, when both
classes are empty, synthesizes exactly one default flexible instance at the
full free allocation (4 OCPUs, 24 GB, 200 GB boot) iff an ARM base image is
available. -/
theorem plan_from_existing_copies_inventory
    (hasArmImage : Bool) (res : ExistingResources) :
    (res.amd_instances = [] ∧ res.arm_instances = [] →
      planFromExisting hasArmImage res =
        { amd_micro_instance_count := 0
          amd_micro_boot_volume_size_gb := 50
          amd_micro_hostnames := []
          amd_block_volume_size_gb := 0
          arm_flex_instance_count := if hasArmImage then 1 else 0
          arm_flex_ocpus_per_instance := if hasArmImage then [4] else []
          arm_flex_memory_per_instance := if hasArmImage then [24] else []
          arm_flex_boot_volume_size_gb := if hasArmImage then [200] else []
          arm_flex_hostnames := if hasArmImage then ["arm-instance-1"] else []
          arm_block_volume_sizes := if hasArmImage then [0] else [] }) ∧
    (¬ (res.amd_instances = [] ∧ res.arm_instances = []) →
      planFromExisting hasArmImage res =
        { amd_micro_instance_count := res.amd_instances.length
          amd_micro_boot_volume_size_gb := 50
          amd_micro_hostnames := res.amd_instances.map (·.display_name)
          amd_block_volume_size_gb := 0
          arm_flex_instance_count := res.arm_instances.length
          arm_flex_ocpus_per_instance := res.arm_instances.map (·.ocpus)
          arm_flex_memory_per_instance := res.arm_instances.map (·.memory)
          arm_flex_boot_volume_size_gb :=
            List.replicate res.arm_instances.length FREE_TIER_MIN_BOOT_VOLUME_GB
          arm_flex_hostnames := res.arm_instances.map (·.display_name)
          arm_block_volume_sizes := List.replicate res.arm_instances.length 0 }) := by
  constructor
  · intro h
    unfold planFromExisting
    rw [if_pos h]
  · intro h
    unfold planFromExisting
    rw [if_neg h]

/-- C6 (witness): the theorem applied to an inventory with two AMD
instances, and to an empty inventory with an ARM image available. -/
theorem plan_from_existing_copies_inventory_witness :
    planFromExisting true resTwoAmd =
      { amd_micro_instance_count := 2
        amd_micro_boot_volume_size_gb := 50
        amd_micro_hostnames := ["amd-instance-1", "amd-instance-2"]
        amd_block_volume_size_gb := 0
        arm_flex_instance_count := 0
        arm_flex_ocpus_per_instance := []
        arm_flex_memory_per_instance := []
        arm_flex_boot_volume_size_gb := []
        arm_flex_hostnames := []
        arm_block_volume_sizes := [] } ∧
    planFromExisting true {} =
      { amd_micro_instance_count := 0
        amd_micro_boot_volume_size_gb := 50
        amd_micro_hostnames := []
        amd_block_volume_size_gb := 0
        arm_flex_instance_count := 1
        arm_flex_ocpus_per_instance := [4]
        arm_flex_memory_per_instance := [24]
        arm_flex_boot_volume_size_gb := [200]
        arm_flex_hostnames := ["arm-instance-1"]
        arm_block_volume_sizes := [0] } := by
  constructor
  · have h := (plan_from_existing_copies_inventory true resTwoAmd).2 (by decide)
    rw [h]
    decide
  · have h := (plan_from_existing_copies_inventory true
      ({} : ExistingResources)).1 ⟨rfl, rfl⟩
    rw [h]
    decide

/-- C4 (counterexample).  The claim says the maximum plan always fits the
remaining free allocation.  With 160 GB of boot volume already in use the
remaining storage budget is 40 GB, but `_plan_maximum` still plans two
50 GB AMD boot volumes plus a flexible boot volume floored at the 47 GB
minimum (147 GB total), which does not fit. -/
theorem plan_maximum_overflows_storage_counterexample :
    ¬ fitsFreeAllocation resBigVolume (planMaximum true resBigVolume) := by
  decide

/-- C4 (amended).  Provided the existing usage does not already exceed the
AMD-instance, OCPU, and memory caps, and at least `50 · (remaining AMD
slots) + 47` GB of the storage budget remains, the configuration computed by
`_plan_maximum` fits the remaining free allocation; a flexible instance is
planned iff flexible quota remains and an ARM base image is available, and
on an account with zero existing usage the plan is exactly the cap of fixed
shapes (2 AMD) plus one flexible instance consuming the whole remaining
OCPU (4) and memory (24 GB) budget, with its boot volume sized to the
storage budget left after the fixed-shape boot volumes (100 GB, never below
the 47 GB minimum). -/
theorem plan_maximum_fits_remaining_allocation
    (hasArmImage : Bool) (res : ExistingResources)
    (hA : 0 ≤ (availableResources res).1)
    (hO : 0 ≤ (availableResources res).2.1)
    (hM : 0 ≤ (availableResources res).2.2.1)
    (hS : 50 * (availableResources res).1 + 47 ≤ (availableResources res).2.2.2) :
    fitsFreeAllocation res (planMaximum hasArmImage res) ∧
    ((planMaximum hasArmImage res).arm_flex_instance_count =
      if hasArmImage ∧ (availableResources res).2.1 > 0 then 1 else 0) ∧
    planMaximum true {} =
      { amd_micro_instance_count := 2
        amd_micro_boot_volume_size_gb := 50
        amd_micro_hostnames := ["amd-instance-1", "amd-instance-2"]
        amd_block_volume_size_gb := 0
        arm_flex_instance_count := 1
        arm_flex_ocpus_per_instance := [4]
        arm_flex_memory_per_instance := [24]
        arm_flex_boot_volume_size_gb := [100]
        arm_flex_hostnames := ["arm-instance-1"]
        arm_block_volume_sizes := [0] } := by
  refine ⟨?_, ?_, by decide⟩
  · by_cases harm : hasArmImage ∧ (availableResources res).2.1 > 0 <;>
    · unfold planMaximum fitsFreeAllocation ociAmdOverflow ociOcpuOverflow
        ociMemoryOverflow ociStorageOverflow proposedStorage
      simp only [harm, if_pos, if_neg, not_false_eq_true, if_true]
      simp [harm, FREE_TIER_MIN_BOOT_VOLUME_GB, FREE_TIER_MAX_AMD_INSTANCES,
        FREE_TIER_MAX_ARM_OCPUS, FREE_TIER_MAX_ARM_MEMORY_GB, FREE_TIER_MAX_STORAGE_GB]
      omega
  · by_cases harm : hasArmImage ∧ (availableResources res).2.1 > 0 <;>
    simp [planMaximum, harm]

/-- C4 (witness): the theorem applied to the zero-usage inventory. -/
theorem plan_maximum_fits_remaining_allocation_witness :
    fitsFreeAllocation {} (planMaximum true {}) :=
  (plan_maximum_fits_remaining_allocation true {} (by decide) (by decide)
    (by decide) (by decide)).1

lemma acceptedArmSpecs_bounds :
    ∀ (specs : List ArmSpec) (rem_o rem_m : Int),
      acceptedArmSpecs rem_o rem_m specs = true →
      ((specs.map (·.ocpus)).sum ≤ max rem_o 1 + specs.length - 1 ∧
       (specs.map (·.memory)).sum ≤ max rem_m 1 + specs.length - 1 ∧
       ∀ s ∈ specs, 1 ≤ s.ocpus ∧ s.memory ≤ 6 * s.ocpus) := by
  intro specs
  induction specs with
  | nil =>
      intro rem_o rem_m _
      refine ⟨by simp, by simp, by simp⟩
  | cons s rest ih =>
      intro rem_o rem_m hacc
      rw [acceptedArmSpecs, Bool.and_eq_true, Bool.and_eq_true, Bool.and_eq_true,
        Bool.and_eq_true, Bool.and_eq_true, Bool.and_eq_true] at hacc
      obtain ⟨⟨⟨⟨ho1, ho2⟩, hm1, hm2⟩, _, _⟩, hrest⟩ := hacc
      rw [decide_eq_true_eq] at ho1 ho2 hm1 hm2
      obtain ⟨iho, ihm, ihall⟩ := ih (rem_o - s.ocpus) (rem_m - s.memory) hrest
      refine ⟨?_, ?_, ?_⟩
      · simp only [List.map_cons, List.sum_cons, List.length_cons]
        push_cast
        omega
      · simp only [List.map_cons, List.sum_cons, List.length_cons]
        push_cast
        omega
      · intro x hx
        rw [List.mem_cons] at hx
        rcases hx with rfl | hx
        · exact ⟨ho1, by omega⟩
        · exact ihall x hx

/-- C3 (counterexample).  The claim says an accepted custom-planner dialogue
can never allocate more OCPUs than `cap − used`.  On a fresh account
(4 OCPUs available) the dialogue `customGreedyInputs` is accepted — every
entry lies in the `IntRange` enforced for it — yet it allocates `4 + 1 = 5`
OCPUs, because after the budget reaches zero the range floor
`IntRange(1, max(1, rem))` still forces at least one OCPU per remaining
instance. -/
theorem plan_custom_exceeds_ocpu_cap_counterexample :
    acceptedCustomInputs true {} customGreedyInputs = true ∧
    ((planCustom true {} customGreedyInputs).arm_flex_ocpus_per_instance).sum >
      (availableResources {}).2.1 := by
  exact ⟨by decide, by decide⟩

/-- C3 (amended).  For every accepted custom-planner dialogue: the AMD count
is at most `max(0, cap − existing)`; every planned ARM instance has at least
1 OCPU and memory at most 6× its OCPUs; and, because the remaining OCPU and
memory budgets are decremented after each instance but every prompt keeps a
floor of 1, the OCPU (resp. memory) sum is bounded by
`max(available, 1) + count − 1` rather than by `available` itself. -/
theorem plan_custom_budget_bounds
    (hasArmImage : Bool) (res : ExistingResources) (inp : CustomInputs)
    (hacc : acceptedCustomInputs hasArmImage res inp = true) :
    (planCustom hasArmImage res inp).amd_micro_instance_count ≤
      max 0 (availableResources res).1 ∧
    ((planCustom hasArmImage res inp).arm_flex_ocpus_per_instance).sum ≤
      max (availableResources res).2.1 1 +
        ((planCustom hasArmImage res inp).arm_flex_ocpus_per_instance).length - 1 ∧
    ((planCustom hasArmImage res inp).arm_flex_memory_per_instance).sum ≤
      max (availableResources res).2.2.1 1 +
        ((planCustom hasArmImage res inp).arm_flex_memory_per_instance).length - 1 ∧
    (∀ pair ∈ ((planCustom hasArmImage res inp).arm_flex_ocpus_per_instance).zip
        ((planCustom hasArmImage res inp).arm_flex_memory_per_instance),
      pair.2 ≤ 6 * pair.1) := by
  unfold acceptedCustomInputs at hacc
  simp only [Bool.and_eq_true, decide_eq_true_eq] at hacc
  obtain ⟨⟨⟨⟨ha1, ha2⟩, hboot⟩, hlen⟩, harm⟩ := hacc
  by_cases hbranch : hasArmImage ∧ (availableResources res).2.1 > 0
  · rw [if_pos hbranch] at harm
    simp only [Bool.and_eq_true, decide_eq_true_eq] at harm
    obtain ⟨⟨⟨hc1, hc2⟩, hlen2⟩, hspecs⟩ := harm
    obtain ⟨ho, hm, hall⟩ := acceptedArmSpecs_bounds inp.arm_specs
      (availableResources res).2.1 (availableResources res).2.2.1 hspecs
    unfold planCustom
    rw [if_pos hbranch]
    refine ⟨ha2, ?_, ?_, ?_⟩
    · simpa using ho
    · simpa using hm
    · intro pair hpair
      rw [List.zip_map', List.mem_map] at hpair
      obtain ⟨sp, hsp, rfl⟩ := hpair
      exact (hall sp hsp).2
  · unfold planCustom
    rw [if_neg hbranch]
    refine ⟨ha2, by simp, by simp, by simp⟩

/-- C3 (witness): the theorem applied to the accepted greedy dialogue on a
fresh account. -/
theorem plan_custom_budget_bounds_witness :
    (planCustom true {} customGreedyInputs).amd_micro_instance_count ≤
      max 0 (availableResources {}).1 ∧
    ((planCustom true {} customGreedyInputs).arm_flex_ocpus_per_instance).sum ≤
      max (availableResources {}).2.1 1 +
        ((planCustom true {} customGreedyInputs).arm_flex_ocpus_per_instance).length - 1 ∧
    ((planCustom true {} customGreedyInputs).arm_flex_memory_per_instance).sum ≤
      max (availableResources {}).2.2.1 1 +
        ((planCustom true {} customGreedyInputs).arm_flex_memory_per_instance).length - 1 ∧
    (∀ pair ∈ ((planCustom true {} customGreedyInputs).arm_flex_ocpus_per_instance).zip
        ((planCustom true {} customGreedyInputs).arm_flex_memory_per_instance),
      pair.2 ≤ 6 * pair.1) :=
  plan_custom_budget_bounds true {} customGreedyInputs (by decide)

lemma ociValidateProposedConfig_ok_iff
    (res : ExistingResources) (planned : PlannedConfig) :
    ociValidateProposedConfig res planned = .ok () ↔
      ociValidationErrors res planned = [] := by
  by_cases hne : ociValidationErrors res planned = [] <;>
    simp [ociValidateProposedConfig, hne]

/-- C7 (counterexample).  The claim says a `PlannedConfig` whose
flexible-class lists disagree with the flexible instance count is processed
with an unconditional assertion failure.  Neither the dataclass, the
validator, nor the renderer contains any such assertion: the mismatched
configuration below (2 declared flexible instances, 1 entry per list) passes
validation without any failure. -/
theorem mismatched_lists_not_asserted_counterexample :
    ¬ flexListsConsistent mismatchedPlan ∧
    ociValidateProposedConfig {} mismatchedPlan = .ok () := by
  exact ⟨by decide, rfl⟩

/-- C7 (amended).  No component checks the flexible-class list-length
invariant: a mismatched `PlannedConfig` is validated purely on its quota
arithmetic (it is accepted iff its sums fit the remaining budgets), and the
renderer emits the declared count and every list verbatim at its own length
into the template — so the mismatch is neither detected (no assertion) nor
repaired (no truncation or padding); it is propagated into the rendered
output. -/
theorem mismatched_lists_processed_obliviously
    (res : ExistingResources) (planned : PlannedConfig) (ctx : OciContext)
    (generated : String) (hmm : ¬ flexListsConsistent planned) :
    (ociValidateProposedConfig res planned = .ok () ↔
      ociValidationErrors res planned = []) ∧
    renderVariablesTf ctx planned generated =
      renderAssemble ctx generated (renderedNumerics planned)
        (q planned.amd_micro_hostnames) (q planned.arm_flex_hostnames) :=
  ⟨ociValidateProposedConfig_ok_iff res planned, rfl⟩

/-- C7 (witness): the theorem applied to the concrete mismatched
configuration. -/
theorem mismatched_lists_processed_obliviously_witness :
    (ociValidateProposedConfig {} mismatchedPlan = .ok () ↔
      ociValidationErrors {} mismatchedPlan = []) ∧
    renderVariablesTf sampleCtx mismatchedPlan "generated-at" =
      renderAssemble sampleCtx "generated-at" (renderedNumerics mismatchedPlan)
        (q mismatchedPlan.amd_micro_hostnames) (q mismatchedPlan.arm_flex_hostnames) :=
  mismatched_lists_processed_obliviously {} mismatchedPlan sampleCtx
    "generated-at" (by decide)

/-- C9 (counterexample).  Two renders of the same `PlannedConfig` are not
byte-identical in general: `_render_variables_tf` stamps `time.ctime()` into
a `# Generated:` comment, so renders taken at different clock readings
differ. -/
theorem render_not_byte_identical_counterexample :
    renderVariablesTf sampleCtx (planMaximum true {}) "Mon Feb  2 10:00:00 2026" ≠
      renderVariablesTf sampleCtx (planMaximum true {}) "Mon Feb  2 10:00:01 2026" := by
  decide

/-- C9 (amended).  Rendering is a pure function of the configuration, the
context, and the `time.ctime()` reading, so two renders agree whenever that
timestamp agrees; the rendered text embeds exactly the numeric literals
`renderedNumerics` (scalars via `str(x)`, lists via
`"[" + ", ".join(...) + "]"`) at the template's numeric slots, and re-parsing
those literals reproduces every original count and size exactly. -/
theorem render_numeric_literals_roundtrip
    (ctx : OciContext) (planned : PlannedConfig) (generated : String) :
    renderVariablesTf ctx planned generated =
      renderAssemble ctx generated (renderedNumerics planned)
        (q planned.amd_micro_hostnames) (q planned.arm_flex_hostnames) ∧
    reparseNumerics (renderedNumerics planned) = some (plannedNumerics planned) := by
  refine ⟨rfl, ?_⟩
  simp [reparseNumerics, renderedNumerics, plannedNumerics, parseInt_intLit,
    parseNums_nums, Option.bind]
